import Mathlib

/-!
Verification of the `agnoresearch` research-pipeline core against its
natural-language specification.

The development shallowly embeds the three source modules that the claims
touch:

* `src/agnoresearch/schemas.py` — the pydantic data model (structures below
  keep the source field names and defaults);
* `src/agnoresearch/tools.py`   — the collector (`scrape_website`,
  `scrape_social`, `search_facebook_structured`, `search_google_reviews`)
  with its retry loop, block handling and truncation;
* `src/agnoresearch/pipeline.py` — validation gates, stage functions,
  `assemble_report` and `run_pipeline`.

External collaborators (the headless browser, the DuckDuckGo search call,
the regular-expression engine used on search snippets, and the language
model) are modelled as oracle functions collected in a `World`; everything
the Python code itself does with their answers is translated directly.
Python exceptions are modelled with `Except Fault`; `None`-or-value results
with `Option`; string truthiness (`if s:`) is translated explicitly.

The instrumented variants (`..T` functions, `RunLog`) additionally report
how many fetch attempts, inter-attempt delays, search invocations and
enrichment appends a run performs; the observable results are the `.1`
projections.
-/

/-- Outcome of one call to the content-fetching collaborator
(`asyncio.run(_browse_url_async url)` / `_browse_instagram_async`):
either it returned a string, or it raised an exception with a message. -/
inductive AttemptOutcome where
  | content (s : String)
  | exn (msg : String)
deriving Repr, DecidableEq

/-- One DuckDuckGo search hit, as consumed by the source via
`r.get("title", ...)`, `r.get("href", ...)`, `r.get("body", ...)`:
each key may be missing. -/
structure SearchHit where
  title : Option String := none
  href : Option String := none
  body : Option String := none
deriving Repr, DecidableEq

/-- Outcome of one `ddg.text(query, max_results)` call inside the search
tools, including the failure modes the `try/except` blocks distinguish:
an (possibly empty) result list, an `ImportError` for the
`duckduckgo_search` package, or any other exception. -/
inductive SearchCallOutcome where
  | hits (results : List SearchHit)
  | importErr
  | exn (msg : String)
deriving Repr, DecidableEq

/-- Outcome of one `agent.run(prompt)` language-model invocation:
a structured value, a falsy/absent `response.content`, or a raised
exception. -/
inductive LLMOutcome (α : Type) where
  | value (a : α)
  | failed
  | fault (msg : String)
deriving Repr, DecidableEq

/-- A Python exception escaping a stage, carrying `str(e)`. -/
inductive Fault where
  | exn (msg : String)
deriving Repr, DecidableEq

/-- `ScrapedContent` (schemas.py). -/
structure ScrapedContent where
  url : String
  success : Bool
  content : String := ""
  error : Option String := none
  content_length : Nat := 0
deriving Repr, DecidableEq

/-- `CompanyFacts` (schemas.py). -/
structure CompanyFacts where
  company_name : String
  industry : String
  what_they_do : String
  products : List String := []
  source_url : String
deriving Repr, DecidableEq

/-- `Opportunity` (schemas.py); `complexity` is a
`Literal["Low","Medium","High"]` string in the source. -/
structure Opportunity where
  area : String
  idea : String
  why : String
  complexity : String
deriving Repr, DecidableEq

/-- `Opportunities` (schemas.py): the analysis schema declares only the
`items` field. -/
structure Opportunities where
  items : List Opportunity
deriving Repr, DecidableEq

/-- `CitedEvidence` (schemas.py). -/
structure CitedEvidence where
  claim : String
  source_url : String
  source_type : String
  excerpt : String := ""
deriving Repr, DecidableEq

/-- `AIOpportunity` (schemas.py). -/
structure AIOpportunity where
  area : String
  opportunity : String
  rationale : String
  complexity : String
  evidence : List CitedEvidence := []
deriving Repr, DecidableEq

/-- `SocialMediaInsight` (schemas.py). -/
structure SocialMediaInsight where
  platform : String
  followers : Option String := none
  posting_frequency : Option String := none
  content_themes : List String := []
  engagement_level : Option String := none
  source_url : String := ""
deriving Repr, DecidableEq

/-- `ResearchQuality` (schemas.py). -/
structure ResearchQuality where
  sources_found : Nat := 0
  urls_successfully_scraped : Nat := 0
  urls_failed : Nat := 0
  evidence_pieces : Nat := 0
  quality_score : String := "Medium"
deriving Repr, DecidableEq

/-- `OutreachDraft` (schemas.py); `channel` is a
`Literal["whatsapp","email"]` string in the source. -/
structure OutreachDraft where
  channel : String
  subject : Option String := none
  body : String
  personalization_used : String
deriving Repr, DecidableEq

/-- `OutreachDrafts` (schemas.py). -/
structure OutreachDrafts where
  whatsapp_drafts : List OutreachDraft
  email_drafts : List OutreachDraft
deriving Repr, DecidableEq

/-- `CompanyResearchReport` (schemas.py), with the source's defaults. -/
structure CompanyResearchReport where
  company_name : String
  industry : String
  overview : String
  products_services : List String := []
  digital_maturity : String
  social_insights : List SocialMediaInsight := []
  ai_opportunities : List AIOpportunity := []
  outreach_drafts : Option OutreachDrafts := none
  outreach_hooks : List String := []
  sources : List String := []
  research_quality : Option ResearchQuality := none
  data_quality : String := "Medium"
  research_notes : Option String := none
deriving Repr, DecidableEq

/-- The external collaborators of one run, as oracles: content fetches per
URL and per attempt index, the DuckDuckGo `ddg.text(query, max_results)`
call keyed by its query, the two `re.search` patterns
`search_google_reviews` applies to a snippet body, and the language-model
invocations keyed by their prompt. -/
structure World where
  webAttempts : String → Nat → AttemptOutcome
  igAttempts : String → Nat → AttemptOutcome
  ddgText : String → Nat → SearchCallOutcome
  ratingIn : String → Option String
  countIn : String → Option String
  extract : String → LLMOutcome CompanyFacts
  analyze : String → LLMOutcome Opportunities

/-- `MAX_RETRIES` (tools.py). -/
def MAX_RETRIES : Nat := 2

/-- `RETRY_DELAY_SECONDS` (tools.py). -/
def RETRY_DELAY_SECONDS : Nat := 2

/-- `MAX_CONTENT_LENGTH` (tools.py). -/
def MAX_CONTENT_LENGTH : Nat := 8000

/-- Occurrence of `pat` as a contiguous run inside a character list;
Python's `pat in s` on strings. -/
def charsContain (pat : List Char) : List Char → Bool
  | [] => pat.isEmpty
  | c :: rest => pat.isPrefixOf (c :: rest) || charsContain pat rest

/-- Python's substring test `pat in s`. -/
def strContains (s pat : String) : Bool :=
  charsContain pat.data s.data

/-- Python string truthiness on an optional string: `None` and `""` are
falsy.  Returns the string exactly when the Python `if x:` succeeds. -/
def optTruthy : Option String → Option String
  | some s => if s = "" then none else some s
  | none => none

/-- Python's `x or d` for an optional string `x` and default `d`. -/
def orElseStr : Option String → String → String
  | some s, d => if s = "" then d else s
  | none, d => d

/-- Python's `str` applied to an `Optional[str]`: `None` prints as
`"None"`. -/
def pyStr : Option String → String
  | some s => s
  | none => "None"

/-- Python's `s.startswith(pre)`: `pre` is a code-point prefix of `s`. -/
def pyStartsWith (s pre : String) : Bool :=
  pre.data.isPrefixOf s.data

/-- Python's `s.lower()`: code-point-wise lowercasing. -/
def pyLower (s : String) : String :=
  String.mk (s.data.map Char.toLower)

/-- Python's `s.strip()`: leading and trailing whitespace removed. -/
def pyStrip (s : String) : String :=
  String.mk (((s.data.dropWhile fun c => c.isWhitespace).reverse.dropWhile
    fun c => c.isWhitespace).reverse)

/-- The failure-indicator test of `scrape_website` (tools.py line 36):
`content.startswith("Failed to fetch") or content.startswith("Error")`. -/
def isFailureContent (c : String) : Bool :=
  pyStartsWith c "Failed to fetch" || pyStartsWith c "Error"

/-- The truncation step shared by `scrape_website` and `scrape_social`
(tools.py lines 43-44, 103-104): contents longer than
`MAX_CONTENT_LENGTH` are cut to the first `MAX_CONTENT_LENGTH` characters
and a marker is appended. -/
def truncateContent (c : String) : String :=
  if c.length > MAX_CONTENT_LENGTH then
    c.take MAX_CONTENT_LENGTH ++ "\n\n[Content truncated...]"
  else c

/-- The retry loop of `scrape_website` (tools.py lines 31-58), instrumented:
besides the `ScrapedContent` it reports how many fetch attempts were made
and the list of inter-attempt delays slept (`time.sleep` arguments).
`fuel` is the number of loop iterations left (`MAX_RETRIES - attempt`);
the fuel-exhausted base case is the unreachable `return` after the loop. -/
def scrape_websiteAux (url : String) (attempts : Nat → AttemptOutcome) :
    Nat → Nat → ScrapedContent × Nat × List Nat
  | _, 0 => (⟨url, false, "", some "Max retries exceeded", 0⟩, 0, [])
  | i, fuel + 1 =>
    match attempts i with
    | .content c =>
      if isFailureContent c then
        if fuel > 0 then
          let r := scrape_websiteAux url attempts (i + 1) fuel
          (r.1, r.2.1 + 1, RETRY_DELAY_SECONDS :: r.2.2)
        else (⟨url, false, "", some c, 0⟩, 1, [])
      else
        let c2 := truncateContent c
        (⟨url, true, c2, none, c2.length⟩, 1, [])
    | .exn msg =>
      if fuel > 0 then
        let r := scrape_websiteAux url attempts (i + 1) fuel
        (r.1, r.2.1 + 1, RETRY_DELAY_SECONDS :: r.2.2)
      else (⟨url, false, "", some msg, 0⟩, 1, [])

/-- `scrape_website` (tools.py), instrumented with attempt count and
delays. -/
def scrape_websiteT (url : String) (attempts : Nat → AttemptOutcome) :
    ScrapedContent × Nat × List Nat :=
  scrape_websiteAux url attempts 0 MAX_RETRIES

/-- `scrape_website` (tools.py): the returned `ScrapedContent`. -/
def scrape_website (url : String) (attempts : Nat → AttemptOutcome) : ScrapedContent :=
  (scrape_websiteT url attempts).1

/-- The Instagram retry loop of `scrape_social` (tools.py lines 82-116):
the failure indicator is a substring test, a login-wall/short answer is a
non-retried failure that keeps the raw content, and the fuel-exhausted
base case is the `Unsupported social platform` return the loop would fall
through to (line 118). -/
def scrape_socialAux (url : String) (attempts : Nat → AttemptOutcome) :
    Nat → Nat → ScrapedContent × Nat × List Nat
  | _, 0 => (⟨url, false, "", some ("Unsupported social platform: " ++ url), 0⟩, 0, [])
  | i, fuel + 1 =>
    match attempts i with
    | .content c =>
      if strContains c "Failed to fetch" || strContains c "Error" then
        if fuel > 0 then
          let r := scrape_socialAux url attempts (i + 1) fuel
          (r.1, r.2.1 + 1, RETRY_DELAY_SECONDS :: r.2.2)
        else (⟨url, false, "", some c, 0⟩, 1, [])
      else if strContains (pyLower c) "may require login" || (pyStrip c).length < 200 then
        (⟨url, false, c,
          some "Instagram returned limited data - may require login or profile is private",
          c.length⟩, 1, [])
      else
        let c2 := truncateContent c
        (⟨url, true, c2, none, c2.length⟩, 1, [])
    | .exn msg =>
      if fuel > 0 then
        let r := scrape_socialAux url attempts (i + 1) fuel
        (r.1, r.2.1 + 1, RETRY_DELAY_SECONDS :: r.2.2)
      else (⟨url, false, "", some msg, 0⟩, 1, [])

/-- `scrape_social` (tools.py lines 61-118), instrumented: Facebook URLs
are refused immediately with zero fetch attempts, Instagram URLs run the
retry loop, anything else fails as unsupported. -/
def scrape_socialT (url : String) (attempts : Nat → AttemptOutcome) :
    ScrapedContent × Nat × List Nat :=
  if strContains (pyLower url) "facebook.com" then
    (⟨url, false, "",
      some "Facebook blocks direct scraping. Use search_facebook_structured instead.",
      0⟩, 0, [])
  else if strContains (pyLower url) "instagram.com" then
    scrape_socialAux url attempts 0 MAX_RETRIES
  else
    (⟨url, false, "", some ("Unsupported social platform: " ++ url), 0⟩, 0, [])

/-- `scrape_social` (tools.py): the returned `ScrapedContent`. -/
def scrape_social (url : String) (attempts : Nat → AttemptOutcome) : ScrapedContent :=
  (scrape_socialT url attempts).1

/-- The result-formatting loop of `search_facebook_structured`
(tools.py lines 150-157), with 1-based enumeration. -/
def fbSearchBlocks : Nat → List SearchHit → String
  | _, [] => ""
  | i, r :: rest =>
    "## " ++ toString i ++ ". " ++ r.title.getD "Untitled" ++ "\n" ++
    "**URL:** " ++ r.href.getD "N/A" ++ "\n" ++
    "**Snippet:** " ++ r.body.getD "No description available" ++ "\n\n" ++
    fbSearchBlocks (i + 1) rest

/-- `search_facebook_structured` (tools.py lines 121-177). -/
def search_facebook_structured (company_name : String) (location : String) (w : World) :
    ScrapedContent :=
  let u := "search:facebook:" ++ company_name
  let query := "site:facebook.com " ++ company_name ++ " " ++ location
  match w.ddgText query 5 with
  | .importErr => ⟨u, false, "", some "duckduckgo-search not installed", 0⟩
  | .exn msg => ⟨u, false, "", some msg, 0⟩
  | .hits results =>
    if results.isEmpty then
      ⟨u, false, "",
        some ("No Facebook results found for '" ++ company_name ++ "' in " ++ location ++ "."),
        0⟩
    else
      let out := "# Facebook Search Results for " ++ company_name ++ "\n\n" ++
        "Search query: `" ++ query ++ "`\n\n" ++ fbSearchBlocks 1 results
      ⟨u, true, out, none, out.length⟩

/-- The first-match scan over snippet bodies in `search_google_reviews`
(tools.py lines 215-225): the first hit whose body matches the pattern
supplies the value. -/
def firstMatchOn (f : String → Option String) : List SearchHit → Option String
  | [] => none
  | r :: rest =>
    match f (r.body.getD "") with
    | some v => some v
    | none => firstMatchOn f rest

/-- The snippet-formatting loop of `search_google_reviews`
(tools.py lines 235-244), over the first five hits, 1-based. -/
def reviewSnippetBlocks : Nat → List SearchHit → String
  | _, [] => ""
  | i, r :: rest =>
    "**" ++ toString i ++ ". " ++ r.title.getD "Untitled" ++ "**\n" ++
    r.body.getD "No description available" ++ "\n" ++
    (let href := r.href.getD ""
     if href = "" then "" else "Source: " ++ href ++ "\n") ++
    "\n" ++ reviewSnippetBlocks (i + 1) rest

/-- `search_google_reviews` (tools.py lines 180-264).  The two `re.search`
patterns applied to each snippet body are collaborator oracles
(`w.ratingIn`, `w.countIn`); everything else is translated directly. -/
def search_google_reviews (company_name : String) (location : String) (w : World) :
    ScrapedContent :=
  let u := "search:reviews:" ++ company_name
  let location_str := if location = "" then "" else " " ++ location
  let query := "\"" ++ company_name ++ "\"" ++ location_str ++ " reviews rating stars"
  match w.ddgText query 8 with
  | .importErr => ⟨u, false, "", some "duckduckgo-search not installed", 0⟩
  | .exn msg => ⟨u, false, "", some msg, 0⟩
  | .hits results =>
    if results.isEmpty then
      ⟨u, false, "", some ("No review results found for '" ++ company_name ++ "'."), 0⟩
    else
      let rating_found := firstMatchOn w.ratingIn results
      let review_count := firstMatchOn w.countIn results
      let out := "# Review Search Results for " ++ company_name ++ "\n\n" ++
        (match rating_found with
         | some v => "**Rating Found:** " ++ v ++ " stars\n"
         | none => "") ++
        (match review_count with
         | some v => "**Review Count:** " ++ v ++ "\n"
         | none => "") ++
        "\n" ++ "## Review Snippets\n\n" ++ reviewSnippetBlocks 1 (results.take 5)
      ⟨u, true, out, none, out.length⟩

/-- `validate_scrape` (pipeline.py lines 30-32): at least one URL must
succeed. -/
def validate_scrape (results : List ScrapedContent) : Bool :=
  results.any (fun r => r.success)

/-- `validate_facts` (pipeline.py lines 35-37): company name non-empty and
at least one product. -/
def validate_facts (facts : CompanyFacts) : Bool :=
  facts.company_name != "" && facts.products.length ≥ 1

/-- `validate_opportunities` (pipeline.py lines 40-42): at least one
opportunity. -/
def validate_opportunities (opps : Opportunities) : Bool :=
  opps.items.length ≥ 1

/-- The run-wide arguments of `run_pipeline` / `stage_scrape`. -/
structure PipelineArgs where
  website_url : String
  instagram_url : Option String := none
  facebook_url : Option String := none
  company_name : Option String := none
  location : Option String := none
  model_id : Option String := none

/-- `stage_scrape` (pipeline.py lines 50-93), instrumented: besides the
result list it counts the `search_facebook_structured` invocations made
during collection.  The result order matches the source's appends:
website, Instagram, Facebook, Facebook search, review search. -/
def stage_scrapeT (args : PipelineArgs) (w : World) : List ScrapedContent × Nat :=
  let website_result := scrape_website args.website_url (w.webAttempts args.website_url)
  let igPart : List ScrapedContent :=
    match optTruthy args.instagram_url with
    | some ig => [scrape_social ig (w.igAttempts ig)]
    | none => []
  let fbPart : List ScrapedContent × Nat :=
    match optTruthy args.facebook_url with
    | some fb =>
      let facebook_result := scrape_social fb (w.igAttempts fb)
      match optTruthy args.company_name with
      | some name =>
        if facebook_result.success then ([facebook_result], 0)
        else ([facebook_result, search_facebook_structured name "Singapore" w], 1)
      | none => ([facebook_result], 0)
    | none =>
      match optTruthy args.company_name with
      | some name => ([search_facebook_structured name "Singapore" w], 1)
      | none => ([], 0)
  let reviewPart : List ScrapedContent :=
    match optTruthy args.company_name with
    | some name => [search_google_reviews name ((optTruthy args.location).getD "") w]
    | none => []
  (website_result :: (igPart ++ fbPart.1 ++ reviewPart), fbPart.2)

/-- `stage_scrape` (pipeline.py): the collected results. -/
def stage_scrape (args : PipelineArgs) (w : World) : List ScrapedContent :=
  (stage_scrapeT args w).1

/-- The extraction prompt built by `stage_extract`
(pipeline.py lines 112-117). -/
def extractPrompt (primary : ScrapedContent) : String :=
  "Extract company facts from this content:\n\n" ++ primary.content ++
  "\n\nSource URL: " ++ primary.url ++ "\n"

/-- `stage_extract` (pipeline.py lines 96-125): the first successful result
with truthy content feeds the extractor model; no such result yields no
facts without any model call.  A raised model exception propagates
(`Except.error`); a falsy response yields no facts.  The `model_id`
argument only selects which model the collaborator runs and is absorbed
into the oracle. -/
def stage_extract (scrape_results : List ScrapedContent) (w : World) :
    Except Fault (Option CompanyFacts) :=
  match scrape_results.filter (fun r => r.success && r.content != "") with
  | [] => Except.ok none
  | primary :: _ =>
    match w.extract (extractPrompt primary) with
    | .value f => Except.ok (some f)
    | .failed => Except.ok none
    | .fault msg => Except.error (Fault.exn msg)

/-- The analysis prompt built by `stage_analyze`
(pipeline.py lines 134-154). -/
def analyzePrompt (facts : CompanyFacts) : String :=
  "Based on these extracted company facts, suggest 2-4 AI opportunities\n" ++
  "AND generate 2-3 conversation starters for outreach:\n\n" ++
  "Company: " ++ facts.company_name ++ "\n" ++
  "Industry: " ++ facts.industry ++ "\n" ++
  "What they do: " ++ facts.what_they_do ++ "\n" ++
  "Products/Services: " ++ String.intercalate ", " facts.products ++ "\n" ++
  "Source: " ++ facts.source_url ++ "\n\n" ++
  "For AI opportunities:\n" ++
  "- Reference specific data from the facts in your 'why' field\n" ++
  "- Focus on proven AI solutions (chatbots, automation, forecasting)\n" ++
  "- Prefer Low/Medium complexity\n\n" ++
  "For conversation_starters (IMPORTANT for outreach personalization):\n" ++
  "- Generate 2-3 hooks based on the research\n" ++
  "- Each needs: topic, hook_text (a genuine question), data_point (supporting fact)\n" ++
  "- These will be used to write personalized outreach messages\n\n" ++
  "Set recommended_hook to the best type: 'rating_praise', 'growth_signal', " ++
  "'industry_question', or 'specific_service'\n"

/-- `stage_analyze` (pipeline.py lines 128-162). -/
def stage_analyze (facts : CompanyFacts) (w : World) : Except Fault (Option Opportunities) :=
  match w.analyze (analyzePrompt facts) with
  | .value o => Except.ok (some o)
  | .failed => Except.ok none
  | .fault msg => Except.error (Fault.exn msg)

/-- `stage_outreach` (pipeline.py lines 165-222).  Its first statement
evaluates `opps.conversation_starters`, but the `Opportunities` schema
(schemas.py lines 51-54) declares only `items`; a pydantic model raises
`AttributeError` for an undefined attribute, so every invocation of this
stage raises before reaching the language model. -/
def stage_outreach (facts : CompanyFacts) (opps : Opportunities)
    (review_content : Option String) : Except Fault (Option OutreachDrafts) :=
  Except.error
    (Fault.exn "AttributeError: 'Opportunities' object has no attribute 'conversation_starters'")

/-- The per-failure research-note line built by `assemble_report`
(pipeline.py line 244); a `None` error renders as Python prints it. -/
def failLine (s : ScrapedContent) : String :=
  "Failed to scrape " ++ s.url ++ ": " ++ pyStr s.error

/-- `assemble_report` (pipeline.py lines 225-310): metrics are computed
from the scrape results; absent facts produce the fixed placeholder
report, otherwise facts, opportunities, drafts and metrics are merged. -/
def assemble_report (facts : Option CompanyFacts) (opps : Option Opportunities)
    (scrape_results : List ScrapedContent) (outreach_drafts : Option OutreachDrafts) :
    CompanyResearchReport :=
  let successful_scrapes := scrape_results.filter (fun s => s.success)
  let failed_scrapes := scrape_results.filter (fun s => !s.success)
  let notes := failed_scrapes.map failLine
  let research_notes : Option String :=
    if notes.isEmpty then none else some (String.intercalate "\n" notes)
  match facts with
  | none =>
    { company_name := "Unknown"
      industry := "Unknown"
      overview := "Could not extract company information from provided URLs."
      products_services := []
      digital_maturity := "Unknown"
      ai_opportunities := []
      sources := successful_scrapes.map (fun s => s.url)
      research_quality := some
        { sources_found := scrape_results.length
          urls_successfully_scraped := successful_scrapes.length
          urls_failed := failed_scrapes.length
          evidence_pieces := 0
          quality_score := "Low" }
      data_quality := "Low"
      research_notes :=
        some (orElseStr research_notes "Extraction failed - no content could be processed.") }
  | some f =>
    let ai_opportunities :=
      match opps with
      | some o => o.items.map (fun opp =>
          ({ area := opp.area
             opportunity := opp.idea
             rationale := opp.why
             complexity := opp.complexity
             evidence := [] } : AIOpportunity))
      | none => []
    let quality_score :=
      if successful_scrapes.length ≥ 3 then "High"
      else if successful_scrapes.length ≥ 2 then "Medium"
      else "Low"
    { company_name := f.company_name
      industry := f.industry
      overview := f.what_they_do
      products_services := f.products
      digital_maturity := "Medium"
      ai_opportunities := ai_opportunities
      outreach_drafts := outreach_drafts
      outreach_hooks := []
      sources := successful_scrapes.map (fun s => s.url)
      research_quality := some
        { sources_found := scrape_results.length
          urls_successfully_scraped := successful_scrapes.length
          urls_failed := failed_scrapes.length
          evidence_pieces := ai_opportunities.length
          quality_score := quality_score }
      data_quality := quality_score
      research_notes := research_notes }

/-- Output of the post-extraction enrichment step. -/
structure EnrichOut where
  results : List ScrapedContent
  appended : List String
  fbCalls : Nat
  reviewCalls : Nat
deriving Repr, DecidableEq

/-- The post-extraction enrichment of `run_pipeline`
(pipeline.py lines 368-378): once the company name is known, a Facebook
search is appended unless some facebook-related result already succeeded,
and a review search is appended unless some result already has `reviews`
in its URL.  `appended` lists the URLs of the appended results, in order. -/
def enrichPhase (args : PipelineArgs) (w : World) (facts : CompanyFacts)
    (rs : List ScrapedContent) : EnrichOut :=
  let fb_results := rs.filter (fun r => strContains (pyLower r.url) "facebook")
  let step1 : List ScrapedContent × List String × Nat :=
    if fb_results.any (fun r => r.success) then (rs, [], 0)
    else
      let fb_search := search_facebook_structured facts.company_name "Singapore" w
      (rs ++ [fb_search], [fb_search.url], 1)
  let review_results := step1.1.filter (fun r => strContains (pyLower r.url) "reviews")
  if review_results.isEmpty then
    let review_search :=
      search_google_reviews facts.company_name ((optTruthy args.location).getD "") w
    ⟨step1.1 ++ [review_search], step1.2.1 ++ [review_search.url], step1.2.2, 1⟩
  else ⟨step1.1, step1.2.1, step1.2.2, 0⟩

/-- Instrumentation of one `run_pipeline` call: search invocations,
enrichment appends, and which LLM stages the orchestrator invoked. -/
structure RunLog where
  fbSearchCalls : Nat := 0
  enrichAppended : List String := []
  extractInvoked : Bool := false
  analyzeInvoked : Bool := false
  composeInvoked : Bool := false
deriving Repr, DecidableEq

/-- The tail of `run_pipeline` once facts passed gate 2
(pipeline.py lines 368-406): enrichment, analysis, the soft gate 3, the
conditional outreach stage and final assembly. -/
def pipelineWithFacts (args : PipelineArgs) (w : World) (rs : List ScrapedContent)
    (fbCalls0 : Nat) (facts : CompanyFacts) :
    Except Fault CompanyResearchReport × RunLog :=
  let en := enrichPhase args w facts rs
  match stage_analyze facts w with
  | .error f =>
    (Except.error f, ⟨fbCalls0 + en.fbCalls, en.appended, true, true, false⟩)
  | .ok oppsOpt =>
    let opps : Option Opportunities :=
      match oppsOpt with
      | some o => if validate_opportunities o then some o else none
      | none => none
    match opps with
    | none =>
      (Except.ok (assemble_report (some facts) none en.results none),
       ⟨fbCalls0 + en.fbCalls, en.appended, true, true, false⟩)
    | some o =>
      let review_content :=
        (en.results.find? (fun r => strContains (pyLower r.url) "reviews" && r.success)).map
          (fun r => r.content)
      match stage_outreach facts o review_content with
      | .error f =>
        (Except.error f, ⟨fbCalls0 + en.fbCalls, en.appended, true, true, true⟩)
      | .ok outreach_drafts =>
        (Except.ok (assemble_report (some facts) (some o) en.results outreach_drafts),
         ⟨fbCalls0 + en.fbCalls, en.appended, true, true, true⟩)

/-- `run_pipeline` after gate 1 passed (pipeline.py lines 360-366):
extraction, fault propagation, and gate 2. -/
def pipelineAfterGate1 (args : PipelineArgs) (w : World) (rs : List ScrapedContent)
    (fbCalls0 : Nat) : Except Fault CompanyResearchReport × RunLog :=
  match stage_extract rs w with
  | .error f => (Except.error f, ⟨fbCalls0, [], true, false, false⟩)
  | .ok none =>
    (Except.ok (assemble_report none none rs none), ⟨fbCalls0, [], true, false, false⟩)
  | .ok (some facts) =>
    if validate_facts facts then pipelineWithFacts args w rs fbCalls0 facts
    else
      (Except.ok (assemble_report (some facts) none rs none),
       ⟨fbCalls0, [], true, false, false⟩)

/-- `run_pipeline` (pipeline.py lines 318-406), instrumented.  A stage
exception propagates out of the orchestrator unchanged (`Except.error`);
every non-faulting path ends in exactly one `assemble_report` call. -/
def run_pipelineT (args : PipelineArgs) (w : World) :
    Except Fault CompanyResearchReport × RunLog :=
  let rs := (stage_scrapeT args w).1
  if validate_scrape rs then pipelineAfterGate1 args w rs (stage_scrapeT args w).2
  else
    (Except.ok (assemble_report none none rs none),
     ⟨(stage_scrapeT args w).2, [], false, false, false⟩)

/-- `run_pipeline` (pipeline.py): the observable outcome. -/
def run_pipeline (args : PipelineArgs) (w : World) : Except Fault CompanyResearchReport :=
  (run_pipelineT args w).1

/-- The instrumentation of one `run_pipeline` call. -/
def runLog (args : PipelineArgs) (w : World) : RunLog :=
  (run_pipelineT args w).2

/-- The tier formula the specification states for `QualityMetrics.tier`:
at least three succeeded sources give High, exactly two give Medium,
fewer give Low. -/
def specTier (succeeded : Nat) : String :=
  if succeeded ≥ 3 then "High" else if succeeded ≥ 2 then "Medium" else "Low"

/-- Classification used by the retry loops: an attempt outcome the code
retries (a raised exception — network timeout — or a failure-indicator
answer — malformed response). -/
def transientFailure : AttemptOutcome → Bool
  | .content c => isFailureContent c
  | .exn _ => true

/-- Full unrolling of the two-attempt `scrape_website` loop. -/
theorem scrape_websiteT_eval (url : String) (attempts : Nat → AttemptOutcome) :
    scrape_websiteT url attempts =
      match attempts 0 with
      | .content c =>
        if isFailureContent c then
          match attempts 1 with
          | .content c2 =>
            if isFailureContent c2 then
              (⟨url, false, "", some c2, 0⟩, 2, [RETRY_DELAY_SECONDS])
            else
              (⟨url, true, truncateContent c2, none, (truncateContent c2).length⟩, 2,
               [RETRY_DELAY_SECONDS])
          | .exn m2 => (⟨url, false, "", some m2, 0⟩, 2, [RETRY_DELAY_SECONDS])
        else (⟨url, true, truncateContent c, none, (truncateContent c).length⟩, 1, [])
      | .exn _ =>
        match attempts 1 with
        | .content c2 =>
          if isFailureContent c2 then
            (⟨url, false, "", some c2, 0⟩, 2, [RETRY_DELAY_SECONDS])
          else
            (⟨url, true, truncateContent c2, none, (truncateContent c2).length⟩, 2,
             [RETRY_DELAY_SECONDS])
        | .exn m2 => (⟨url, false, "", some m2, 0⟩, 2, [RETRY_DELAY_SECONDS]) := by
  have e1 : ∀ i : Nat, scrape_websiteAux url attempts i 1 =
      (match attempts i with
       | .content c =>
         if isFailureContent c then (⟨url, false, "", some c, 0⟩, 1, [])
         else (⟨url, true, truncateContent c, none, (truncateContent c).length⟩, 1, [])
       | .exn m => (⟨url, false, "", some m, 0⟩, 1, [])) := by
    intro i
    show scrape_websiteAux url attempts i (0 + 1) = _
    rw [scrape_websiteAux]
    cases attempts i <;> simp
  show scrape_websiteAux url attempts 0 (1 + 1) = _
  rw [scrape_websiteAux]
  cases h0 : attempts 0 with
  | content c =>
    by_cases hc : isFailureContent c
    · simp only [hc, if_true, gt_iff_lt, Nat.zero_lt_one, e1]
      cases h1 : attempts 1 with
      | content c2 => by_cases hc2 : isFailureContent c2 <;> simp [hc2]
      | exn m2 => simp
    · simp [hc]
  | exn m =>
    simp only [gt_iff_lt, Nat.zero_lt_one, if_true, e1]
    cases h1 : attempts 1 with
    | content c2 => by_cases hc2 : isFailureContent c2 <;> simp [hc2]
    | exn m2 => simp

/-- C7: the collector makes at most `MAX_RETRIES = 2` attempts per target,
every inter-attempt delay is the fixed `RETRY_DELAY_SECONDS`, a second
attempt happens only after a transient-classified first failure, and a
target whose two attempts both fail transiently is attempted exactly twice
and then marked failed. -/
theorem scrape_website_retry_policy (url : String) (attempts : Nat → AttemptOutcome) :
    (scrape_websiteT url attempts).2.1 ≤ MAX_RETRIES ∧
    (scrape_websiteT url attempts).2.2 =
      List.replicate ((scrape_websiteT url attempts).2.1 - 1) RETRY_DELAY_SECONDS ∧
    ((scrape_websiteT url attempts).2.1 = 2 → transientFailure (attempts 0) = true) ∧
    (transientFailure (attempts 0) = true → transientFailure (attempts 1) = true →
      (scrape_websiteT url attempts).2.1 = 2 ∧ (scrape_website url attempts).success = false) := by
  have he := scrape_websiteT_eval url attempts
  cases h0 : attempts 0 with
  | content c =>
    simp only [h0] at he
    by_cases hc : isFailureContent c
    · simp only [hc, if_true] at he
      cases h1 : attempts 1 with
      | content c2 =>
        simp only [h1] at he
        by_cases hc2 : isFailureContent c2
        · simp only [hc2, if_true] at he
          simp [scrape_website, he, transientFailure, h0, h1, hc, hc2, MAX_RETRIES,
            List.replicate]
        · simp only [hc2] at he
          simp [scrape_website, he, transientFailure, h0, h1, hc, hc2, MAX_RETRIES,
            List.replicate]
      | exn m2 =>
        simp only [h1] at he
        simp [scrape_website, he, transientFailure, h0, h1, hc, MAX_RETRIES, List.replicate]
    · simp only [hc] at he
      simp [scrape_website, he, transientFailure, h0, hc, MAX_RETRIES, List.replicate]
  | exn m =>
    simp only [h0] at he
    cases h1 : attempts 1 with
    | content c2 =>
      simp only [h1] at he
      by_cases hc2 : isFailureContent c2
      · simp only [hc2, if_true] at he
        simp [scrape_website, he, transientFailure, h0, h1, hc2, MAX_RETRIES, List.replicate]
      · simp only [hc2] at he
        simp [scrape_website, he, transientFailure, h0, h1, hc2, MAX_RETRIES, List.replicate]
    | exn m2 =>
      simp only [h1] at he
      simp [scrape_website, he, transientFailure, h0, h1, MAX_RETRIES, List.replicate]

/-- Witness for the retry-policy theorem: a target whose fetches always
raise is attempted exactly twice and reported failed. -/
theorem scrape_website_retry_policy_witness :
    (scrape_websiteT "https://x.example" (fun _ => AttemptOutcome.exn "timeout")).2.1 = 2 ∧
    (scrape_website "https://x.example" (fun _ => AttemptOutcome.exn "timeout")).success = false :=
  (scrape_website_retry_policy "https://x.example" (fun _ => AttemptOutcome.exn "timeout")).2.2.2
    rfl rfl

/-- Any truncated content is bounded by `MAX_CONTENT_LENGTH` plus the
24-character truncation marker. -/
theorem truncateContent_length_le (c : String) :
    (truncateContent c).length ≤ MAX_CONTENT_LENGTH + 24 := by
  unfold truncateContent
  split
  · have h1 : (c.take MAX_CONTENT_LENGTH).length ≤ MAX_CONTENT_LENGTH := by
      rw [String.take_eq]
      simp [List.length_take]
    have hm : ("\n\n[Content truncated...]" : String).length = 24 := rfl
    rw [String.length_append, hm]
    omega
  · next h => omega

/-- A successful result of the `scrape_website` loop always carries a
truncated content. -/
theorem scrape_websiteAux_success_content (url : String) (attempts : Nat → AttemptOutcome) :
    ∀ (fuel i : Nat), (scrape_websiteAux url attempts i fuel).1.success = true →
      ∃ c, (scrape_websiteAux url attempts i fuel).1.content = truncateContent c := by
  intro fuel
  induction fuel with
  | zero => intro i h; simp [scrape_websiteAux] at h
  | succ n ih =>
    intro i h
    rw [scrape_websiteAux] at h ⊢
    cases ha : attempts i with
    | content c =>
      simp only [ha] at h ⊢
      by_cases hc : isFailureContent c
      · simp only [hc, if_true] at h ⊢
        by_cases hn : n > 0
        · simp only [hn, if_true] at h ⊢
          exact ih (i + 1) h
        · simp [hn] at h
      · simp only [hc, Bool.false_eq_true, if_false] at h ⊢
        exact ⟨c, rfl⟩
    | exn m =>
      simp only [ha] at h ⊢
      by_cases hn : n > 0
      · simp only [hn, if_true] at h ⊢
        exact ih (i + 1) h
      · simp [hn] at h

/-- A successful result of the Instagram loop of `scrape_social` always
carries a truncated content (the login-wall branch is a failure). -/
theorem scrape_socialAux_success_content (url : String) (attempts : Nat → AttemptOutcome) :
    ∀ (fuel i : Nat), (scrape_socialAux url attempts i fuel).1.success = true →
      ∃ c, (scrape_socialAux url attempts i fuel).1.content = truncateContent c := by
  intro fuel
  induction fuel with
  | zero => intro i h; simp [scrape_socialAux] at h
  | succ n ih =>
    intro i h
    rw [scrape_socialAux] at h ⊢
    cases ha : attempts i with
    | content c =>
      simp only [ha] at h ⊢
      by_cases hc : (strContains c "Failed to fetch" || strContains c "Error") = true
      · simp only [hc, if_true] at h ⊢
        by_cases hn : n > 0
        · simp only [hn, if_true] at h ⊢
          exact ih (i + 1) h
        · simp [hn] at h
      · simp only [hc, Bool.false_eq_true, if_false] at h ⊢
        by_cases hw : (strContains (pyLower c) "may require login" || (pyStrip c).length < 200) = true
        · simp [hw] at h
        · simp only [hw, Bool.false_eq_true, if_false] at h ⊢
          exact ⟨c, rfl⟩
    | exn m =>
      simp only [ha] at h ⊢
      by_cases hn : n > 0
      · simp only [hn, if_true] at h ⊢
        exact ih (i + 1) h
      · simp [hn] at h

/-- C8 (amended): every successful result returned by the URL scrapers
carries content of at most `MAX_CONTENT_LENGTH` characters plus the
24-character truncation marker (8024 in total); failed results and
search-based results are returned without this truncation. -/
theorem scraper_truncation_bound (url : String) (attempts : Nat → AttemptOutcome) :
    ((scrape_website url attempts).success = true →
      (scrape_website url attempts).content.length ≤ MAX_CONTENT_LENGTH + 24) ∧
    ((scrape_social url attempts).success = true →
      (scrape_social url attempts).content.length ≤ MAX_CONTENT_LENGTH + 24) := by
  constructor
  · intro h
    simp only [scrape_website, scrape_websiteT] at h ⊢
    obtain ⟨c, hc⟩ := scrape_websiteAux_success_content url attempts MAX_RETRIES 0 h
    rw [hc]
    exact truncateContent_length_le c
  · intro h
    simp only [scrape_social, scrape_socialT] at h ⊢
    by_cases hf : strContains (pyLower url) "facebook.com" = true
    · simp [hf] at h
    · by_cases hi : strContains (pyLower url) "instagram.com" = true
      · simp only [hf, hi, Bool.false_eq_true, if_false, if_true] at h ⊢
        obtain ⟨c, hc⟩ := scrape_socialAux_success_content url attempts MAX_RETRIES 0 h
        rw [hc]
        exact truncateContent_length_le c
      · simp [hf, hi] at h

/-- A page answer long enough to pass the Instagram login-wall check and
free of failure indicators. -/
def okPage : String := String.mk (List.replicate 250 'a')

set_option maxRecDepth 8000 in
/-- Witness for the truncation bound: a successful website fetch and a
successful Instagram fetch both satisfy the 8024-character bound. -/
theorem scraper_truncation_bound_witness :
    (scrape_website "https://site.example" (fun _ => AttemptOutcome.content okPage)).content.length
      ≤ MAX_CONTENT_LENGTH + 24 ∧
    (scrape_social "https://instagram.com/acme"
        (fun _ => AttemptOutcome.content okPage)).content.length
      ≤ MAX_CONTENT_LENGTH + 24 :=
  ⟨(scraper_truncation_bound "https://site.example" (fun _ => AttemptOutcome.content okPage)).1
      (by decide),
   (scraper_truncation_bound "https://instagram.com/acme"
        (fun _ => AttemptOutcome.content okPage)).2
      (by decide)⟩

/-- A successfully fetched page of 8001 characters. -/
def bigContent : String := String.mk (List.replicate 8001 'a')

/-- Counterexample to C8 as stated: a successful fetch of an
8001-character page is returned with 8024 characters of content — the
code slices to 8000 characters and then appends the 24-character marker,
so the returned content exceeds the stated 8000-character bound. -/
theorem scrape_website_truncation_cex :
    (scrape_website "https://big.example" (fun _ => AttemptOutcome.content bigContent)).success
      = true ∧
    MAX_CONTENT_LENGTH <
      (scrape_website "https://big.example"
        (fun _ => AttemptOutcome.content bigContent)).content.length := by
  have hfail : isFailureContent bigContent = false := by decide
  have he := scrape_websiteT_eval "https://big.example"
    (fun _ => AttemptOutcome.content bigContent)
  simp only [hfail, Bool.false_eq_true, if_false] at he
  have hbig : bigContent.length = 8001 := by
    show (String.mk (List.replicate 8001 'a')).length = 8001
    rw [String.length_mk, List.length_replicate]
  have h1 : (bigContent.take MAX_CONTENT_LENGTH).length = MAX_CONTENT_LENGTH := by
    rw [String.take_eq, String.length_mk]
    show ((List.replicate 8001 'a').take MAX_CONTENT_LENGTH).length = MAX_CONTENT_LENGTH
    rw [List.length_take, List.length_replicate]
    decide
  have hlen : (truncateContent bigContent).length = MAX_CONTENT_LENGTH + 24 := by
    unfold truncateContent
    rw [if_pos (by rw [hbig]; decide), String.length_append, h1]
    rfl
  constructor
  · show (scrape_websiteT "https://big.example"
      (fun _ => AttemptOutcome.content bigContent)).1.success = true
    rw [he]
  · show MAX_CONTENT_LENGTH < (scrape_websiteT "https://big.example"
      (fun _ => AttemptOutcome.content bigContent)).1.content.length
    rw [he]
    simp only [hlen]
    omega

/-- C2 (amended): with Facts present the tier is the pure count formula
(≥3 High, 2 Medium, otherwise Low) of the successful results; with Facts
absent the placeholder report's tier is always Low, regardless of the
count.  Both the metrics field and the report-level `data_quality` carry
that tier, so it is never taken from a stage's self-assessment. -/
theorem quality_tier_formula (facts : CompanyFacts) (opps : Option Opportunities)
    (rs : List ScrapedContent) (drafts : Option OutreachDrafts) :
    (assemble_report (some facts) opps rs drafts).research_quality.map
        (fun q => q.quality_score) =
      some (specTier ((rs.filter (fun s => s.success)).length)) ∧
    (assemble_report (some facts) opps rs drafts).data_quality =
      specTier ((rs.filter (fun s => s.success)).length) ∧
    (assemble_report none opps rs drafts).research_quality.map
        (fun q => q.quality_score) = some "Low" ∧
    (assemble_report none opps rs drafts).data_quality = "Low" := by
  refine ⟨?_, ?_, rfl, rfl⟩ <;> simp [assemble_report, specTier]

/-- Three successful fetch results. -/
def okScrape (u : String) : ScrapedContent :=
  ⟨u, true, "page content", none, 12⟩

/-- Counterexample to C2 as stated: with three successful fetch results
but no extracted Facts, the assembler emits tier Low, not the High the
count formula demands — the tier is not independent of whether Facts were
extracted. -/
theorem quality_tier_cex :
    (([okScrape "https://a.example", okScrape "https://b.example",
        okScrape "https://c.example"].filter (fun s => s.success)).length = 3) ∧
    (assemble_report none none
        [okScrape "https://a.example", okScrape "https://b.example",
         okScrape "https://c.example"] none).research_quality.map
        (fun q => q.quality_score) = some "Low" ∧
    (some "Low" : Option String) ≠ some "High" := by
  refine ⟨rfl, rfl, by decide⟩

/-- Filtering a list by a predicate and by its negation partitions its
length. -/
theorem length_filter_add_length_filter_not (p : α → Bool) (l : List α) :
    (l.filter p).length + (l.filter (fun a => !p a)).length = l.length := by
  induction l with
  | nil => rfl
  | cons a t ih =>
    cases h : p a <;> simp [List.filter_cons, h, ← ih] <;> omega

/-- C9: the metrics are exact counts over the fetch-result list — total,
successes, failures, with total the sum of the other two — and the
report's sources are exactly the successful results' addresses, in both
the placeholder and the normal branch. -/
theorem metrics_consistency (facts : Option CompanyFacts) (opps : Option Opportunities)
    (rs : List ScrapedContent) (drafts : Option OutreachDrafts) :
    ∃ rq, (assemble_report facts opps rs drafts).research_quality = some rq ∧
      rq.sources_found = rs.length ∧
      rq.urls_successfully_scraped = (rs.filter (fun s => s.success)).length ∧
      rq.urls_failed = (rs.filter (fun s => !s.success)).length ∧
      rq.sources_found = rq.urls_successfully_scraped + rq.urls_failed ∧
      (assemble_report facts opps rs drafts).sources =
        (rs.filter (fun s => s.success)).map (fun s => s.url) := by
  cases facts <;>
    exact ⟨_, rfl, rfl, rfl, rfl,
      (length_filter_add_length_filter_not (fun s => s.success) rs).symm, rfl⟩

/-- The `String.intercalate` accumulator never shrinks. -/
theorem intercalate_go_length_le (s : String) :
    ∀ (as : List String) (acc : String),
      acc.length ≤ (String.intercalate.go acc s as).length := by
  intro as
  induction as with
  | nil => intro acc; simp [String.intercalate.go]
  | cons a t ih =>
    intro acc
    rw [String.intercalate.go]
    calc acc.length ≤ (acc ++ s ++ a).length := by
          rw [String.length_append, String.length_append]; omega
      _ ≤ _ := ih (acc ++ s ++ a)

/-- A joined non-empty list of per-failure note lines is a non-empty
string. -/
theorem intercalate_failLines_ne_empty (a : ScrapedContent) (t : List ScrapedContent) :
    String.intercalate "\n" ((a :: t).map failLine) ≠ "" := by
  intro h
  have h17 : ("Failed to scrape " : String).length = 17 := rfl
  have hpos : 0 < (failLine a).length := by
    simp [failLine, String.length_append, h17]
  have hle : (failLine a).length ≤ (String.intercalate "\n" ((a :: t).map failLine)).length := by
    rw [List.map_cons, String.intercalate]
    exact intercalate_go_length_le "\n" (t.map failLine) (failLine a)
  rw [h] at hle
  simp at hle
  omega

/-- C10: whenever Facts are absent the assembled placeholder report's
research notes are present and non-empty — the joined per-failure lines
when at least one fetch failed, and the fixed extraction-failure sentence
otherwise. -/
theorem placeholder_notes_nonempty (opps : Option Opportunities)
    (rs : List ScrapedContent) (drafts : Option OutreachDrafts) :
    ∃ s, (assemble_report none opps rs drafts).research_notes = some s ∧ s ≠ "" ∧
      (rs.filter (fun r => !r.success) ≠ [] →
        s = String.intercalate "\n" ((rs.filter (fun r => !r.success)).map failLine)) ∧
      (rs.filter (fun r => !r.success) = [] →
        s = "Extraction failed - no content could be processed.") := by
  by_cases hf : rs.filter (fun r => !r.success) = []
  · refine ⟨"Extraction failed - no content could be processed.", ?_, by decide,
      fun h => absurd hf h, fun _ => rfl⟩
    simp [assemble_report, hf, orElseStr]
  · obtain ⟨a, t, hat⟩ := List.exists_cons_of_ne_nil hf
    refine ⟨String.intercalate "\n" ((rs.filter (fun r => !r.success)).map failLine), ?_,
      ?_, fun _ => rfl, fun h => absurd h hf⟩
    · simp [assemble_report, hat, orElseStr]
      intro h
      exact absurd h (intercalate_failLines_ne_empty a t)
    · rw [hat]
      exact intercalate_failLines_ne_empty a t

/-- C1: `run_pipeline` yields exactly one outcome — a Report or an
explicit pipeline-level error, never both and never neither — and an
unhandled fault raised inside a stage (here: an extractor exception once
a usable fetch result exists) surfaces at the orchestrator boundary as
that explicit error, producing no Report. -/
theorem run_pipeline_single_outcome (args : PipelineArgs) (w : World) :
    (((∃ r, run_pipeline args w = Except.ok r) ∧
        ¬ ∃ e, run_pipeline args w = Except.error e) ∨
      ((∃ e, run_pipeline args w = Except.error e) ∧
        ¬ ∃ r, run_pipeline args w = Except.ok r)) ∧
    (∀ m, (∀ p, w.extract p = LLMOutcome.fault m) →
      (∃ r ∈ stage_scrape args w, r.success = true ∧ r.content ≠ "") →
      run_pipeline args w = Except.error (Fault.exn m)) := by
  constructor
  · cases h : run_pipeline args w with
    | ok r =>
      exact Or.inl ⟨⟨r, rfl⟩, fun ⟨e, he⟩ => by cases he⟩
    | error e =>
      exact Or.inr ⟨⟨e, rfl⟩, fun ⟨r, hr⟩ => by cases hr⟩
  · rintro m hm ⟨r, hrmem, hsucc, hcont⟩
    have hval : validate_scrape (stage_scrape args w) = true := by
      simp only [validate_scrape, List.any_eq_true]
      exact ⟨r, hrmem, hsucc⟩
    have hrfil : r ∈ (stage_scrape args w).filter
        (fun x => x.success && x.content != "") := by
      rw [List.mem_filter]
      exact ⟨hrmem, by simp [hsucc, hcont]⟩
    have hfil : ∃ p rest, (stage_scrape args w).filter
        (fun x => x.success && x.content != "") = p :: rest := by
      cases h2 : (stage_scrape args w).filter (fun x => x.success && x.content != "") with
      | nil => rw [h2] at hrfil; exact absurd hrfil (List.not_mem_nil r)
      | cons p rest => exact ⟨p, rest, rfl⟩
    obtain ⟨p, rest, hp⟩ := hfil
    have hex : stage_extract (stage_scrape args w) w = Except.error (Fault.exn m) := by
      simp only [stage_extract]
      rw [hp]
      simp [hm]
    simp only [stage_scrape] at hval hex
    simp only [run_pipeline, run_pipelineT, hval, if_true, pipelineAfterGate1, hex]

/-- The run-wide arguments used by the concrete witnesses: only the
website URL is provided. -/
def cArgsW : PipelineArgs := { website_url := "https://w.example" }

/-- A page answer carrying usable content. -/
def pageContent : String :=
  "Welcome to Acme Logistics. We provide delivery services across the region."

/-- A world whose fetches succeed but whose extractor model always
raises. -/
def faultWorld : World :=
  { webAttempts := fun _ _ => AttemptOutcome.content pageContent
    igAttempts := fun _ _ => AttemptOutcome.exn "net down"
    ddgText := fun _ _ => SearchCallOutcome.hits []
    ratingIn := fun _ => none
    countIn := fun _ => none
    extract := fun _ => LLMOutcome.fault "boom"
    analyze := fun _ => LLMOutcome.failed }

/-- Witness: with a successful fetch and an always-raising extractor the
pipeline surfaces exactly the explicit error, and no Report. -/
theorem run_pipeline_single_outcome_witness :
    run_pipeline cArgsW faultWorld = Except.error (Fault.exn "boom") :=
  (run_pipeline_single_outcome cArgsW faultWorld).2 "boom" (fun _ => rfl) (by decide)

/-- C3: when no fetch result succeeded, the orchestrator invokes none of
the LLM stages and returns the fixed placeholder Report — identity fields
`Unknown`, empty offerings and recommendations, tier Low, absent drafts,
and research notes listing one line (address and error) per failed fetch
result. -/
theorem gate1_placeholder (args : PipelineArgs) (w : World)
    (h : ∀ r ∈ stage_scrape args w, r.success = false) :
    run_pipeline args w =
      Except.ok (assemble_report none none (stage_scrape args w) none) ∧
    (runLog args w).extractInvoked = false ∧
    (runLog args w).analyzeInvoked = false ∧
    (runLog args w).composeInvoked = false ∧
    (assemble_report none none (stage_scrape args w) none).company_name = "Unknown" ∧
    (assemble_report none none (stage_scrape args w) none).industry = "Unknown" ∧
    (assemble_report none none (stage_scrape args w) none).products_services = [] ∧
    (assemble_report none none (stage_scrape args w) none).ai_opportunities = [] ∧
    (assemble_report none none (stage_scrape args w) none).outreach_drafts = none ∧
    (assemble_report none none (stage_scrape args w) none).data_quality = "Low" ∧
    (assemble_report none none (stage_scrape args w) none).research_quality =
      some ⟨(stage_scrape args w).length, 0, (stage_scrape args w).length, 0, "Low"⟩ ∧
    (assemble_report none none (stage_scrape args w) none).research_notes =
      some (String.intercalate "\n" ((stage_scrape args w).map failLine)) := by
  have hval : validate_scrape (stage_scrape args w) = false := by
    simp only [validate_scrape]
    rw [List.any_eq_false]
    intro x hx
    simp [h x hx]
  have hsucc : (stage_scrape args w).filter (fun s => s.success) = [] :=
    List.filter_eq_nil_iff.mpr (fun a ha => by simp [h a ha])
  have hfailf : (stage_scrape args w).filter (fun s => !s.success) = stage_scrape args w :=
    List.filter_eq_self.mpr (fun a ha => by simp [h a ha])
  have hne : stage_scrape args w ≠ [] := by
    simp [stage_scrape, stage_scrapeT]
  obtain ⟨a, t, hat⟩ := List.exists_cons_of_ne_nil hne
  refine ⟨?_, ?_, ?_, ?_, rfl, rfl, rfl, rfl, rfl, rfl, ?_, ?_⟩
  · simp only [stage_scrape] at hval ⊢
    simp [run_pipeline, run_pipelineT, hval]
  · simp only [stage_scrape] at hval
    simp [runLog, run_pipelineT, hval]
  · simp only [stage_scrape] at hval
    simp [runLog, run_pipelineT, hval]
  · simp only [stage_scrape] at hval
    simp [runLog, run_pipelineT, hval]
  · simp [assemble_report, hsucc, hfailf]
  · simp only [assemble_report, hfailf]
    rw [hat]
    simp [orElseStr]
    intro hcontra
    exact absurd hcontra (intercalate_failLines_ne_empty a t)

/-- A world in which every fetch raises and every model call fails. -/
def faultFailWorld : World :=
  { webAttempts := fun _ _ => AttemptOutcome.exn "boom"
    igAttempts := fun _ _ => AttemptOutcome.exn "boom"
    ddgText := fun _ _ => SearchCallOutcome.hits []
    ratingIn := fun _ => none
    countIn := fun _ => none
    extract := fun _ => LLMOutcome.failed
    analyze := fun _ => LLMOutcome.failed }

/-- Witness for the placeholder short-circuit: a run whose only fetch
fails twice produces the placeholder report with the single failure
line. -/
theorem gate1_placeholder_witness :
    (∀ r ∈ stage_scrape cArgsW faultFailWorld, r.success = false) ∧
    run_pipeline cArgsW faultFailWorld =
      Except.ok (assemble_report none none (stage_scrape cArgsW faultFailWorld) none) ∧
    (assemble_report none none (stage_scrape cArgsW faultFailWorld) none).research_notes =
      some "Failed to scrape https://w.example: boom" :=
  ⟨by decide, (gate1_placeholder cArgsW faultFailWorld (by decide)).1, by decide⟩

/-- A report assembled without drafts has an absent drafts field, in both
branches. -/
theorem assemble_report_drafts_none (facts : Option CompanyFacts)
    (opps : Option Opportunities) (rs : List ScrapedContent) :
    (assemble_report facts opps rs none).outreach_drafts = none := by
  cases facts <;> rfl

/-- Any report produced by the post-gate-2 tail has an absent drafts
field: the composer either is skipped or raises before returning. -/
theorem pipelineWithFacts_ok_drafts (args : PipelineArgs) (w : World)
    (rs : List ScrapedContent) (n : Nat) (facts : CompanyFacts) :
    ∀ r, (pipelineWithFacts args w rs n facts).1 = Except.ok r →
      r.outreach_drafts = none := by
  intro r h
  simp only [pipelineWithFacts] at h
  cases hsa : stage_analyze facts w with
  | error f => rw [hsa] at h; simp at h
  | ok oppsOpt =>
    rw [hsa] at h
    cases oppsOpt with
    | none =>
      simp only [] at h
      injection h with h2
      rw [← h2]
      exact assemble_report_drafts_none _ _ _
    | some o =>
      by_cases hv : validate_opportunities o
      · simp only [hv, if_true, stage_outreach] at h
        cases h
      · simp only [hv, Bool.false_eq_true, if_false] at h
        injection h with h2
        rw [← h2]
        exact assemble_report_drafts_none _ _ _

/-- If the post-gate-2 tail marked the composer as invoked, analysis
produced a validated non-empty recommendation set. -/
theorem pipelineWithFacts_compose (args : PipelineArgs) (w : World)
    (rs : List ScrapedContent) (n : Nat) (facts : CompanyFacts) :
    (pipelineWithFacts args w rs n facts).2.composeInvoked = true →
    ∃ o, stage_analyze facts w = Except.ok (some o) ∧ 1 ≤ o.items.length := by
  intro h
  simp only [pipelineWithFacts] at h
  cases hsa : stage_analyze facts w with
  | error f => rw [hsa] at h; simp at h
  | ok oppsOpt =>
    rw [hsa] at h
    cases oppsOpt with
    | none => simp at h
    | some o =>
      by_cases hv : validate_opportunities o
      · refine ⟨o, rfl, ?_⟩
        simpa [validate_opportunities] using hv
      · simp [hv] at h

/-- Any report produced after gate 1 has an absent drafts field. -/
theorem pipelineAfterGate1_ok_drafts (args : PipelineArgs) (w : World)
    (rs : List ScrapedContent) (n : Nat) :
    ∀ r, (pipelineAfterGate1 args w rs n).1 = Except.ok r →
      r.outreach_drafts = none := by
  intro r h
  simp only [pipelineAfterGate1] at h
  cases hse : stage_extract rs w with
  | error f => rw [hse] at h; simp at h
  | ok factsOpt =>
    rw [hse] at h
    cases factsOpt with
    | none =>
      injection h with h2
      rw [← h2]
      exact assemble_report_drafts_none _ _ _
    | some facts =>
      by_cases hvf : validate_facts facts
      · simp only [hvf, if_true] at h
        exact pipelineWithFacts_ok_drafts args w rs n facts r h
      · simp only [hvf, Bool.false_eq_true, if_false] at h
        injection h with h2
        rw [← h2]
        exact assemble_report_drafts_none _ _ _

/-- If the gate-1 tail marked the composer as invoked, extraction
produced validated facts and analysis a validated recommendation set. -/
theorem pipelineAfterGate1_compose (args : PipelineArgs) (w : World)
    (rs : List ScrapedContent) (n : Nat) :
    (pipelineAfterGate1 args w rs n).2.composeInvoked = true →
    ∃ facts, stage_extract rs w = Except.ok (some facts) ∧
      validate_facts facts = true ∧
      ∃ o, stage_analyze facts w = Except.ok (some o) ∧ 1 ≤ o.items.length := by
  intro h
  simp only [pipelineAfterGate1] at h
  cases hse : stage_extract rs w with
  | error f => rw [hse] at h; simp at h
  | ok factsOpt =>
    rw [hse] at h
    cases factsOpt with
    | none => simp at h
    | some facts =>
      by_cases hvf : validate_facts facts
      · simp only [hvf, if_true] at h
        exact ⟨facts, rfl, hvf, pipelineWithFacts_compose args w rs n facts h⟩
      · simp [hvf] at h

/-- C4: a produced Report's drafts field is non-empty only when both
Facts and at least one recommendation exist (in this code the drafts
field of every produced Report is in fact absent, because the composer
raises on a schema-absent attribute before returning), and the Composer
stage is invoked only when extraction produced validated Facts and
analysis a non-empty validated RecommendationSet — so with an empty or
absent RecommendationSet it is never invoked and the drafts field is
absent. -/
theorem composer_gating (args : PipelineArgs) (w : World) :
    (∀ r, run_pipeline args w = Except.ok r → r.outreach_drafts = none) ∧
    ((runLog args w).composeInvoked = true →
      ∃ facts, stage_extract (stage_scrape args w) w = Except.ok (some facts) ∧
        validate_facts facts = true ∧
        ∃ o, stage_analyze facts w = Except.ok (some o) ∧ 1 ≤ o.items.length) := by
  constructor
  · intro r h
    simp only [run_pipeline, run_pipelineT] at h
    by_cases hval : validate_scrape (stage_scrapeT args w).1
    · simp only [hval, if_true] at h
      exact pipelineAfterGate1_ok_drafts args w _ _ r h
    · simp only [hval, Bool.false_eq_true, if_false] at h
      injection h with h2
      rw [← h2]
      exact assemble_report_drafts_none _ _ _
  · intro h
    simp only [runLog, run_pipelineT] at h
    by_cases hval : validate_scrape (stage_scrapeT args w).1
    · simp only [hval, if_true] at h
      simpa only [stage_scrape] using pipelineAfterGate1_compose args w _ _ h
    · simp [hval] at h

/-- Witness for the composer gating: in a run where extraction fails,
the produced placeholder report has an absent drafts field. -/
theorem composer_gating_witness :
    run_pipeline cArgsW faultFailWorld =
      Except.ok (assemble_report none none (stage_scrape cArgsW faultFailWorld) none) ∧
    (assemble_report none none (stage_scrape cArgsW faultFailWorld) none).outreach_drafts
      = none :=
  ⟨by rfl, (composer_gating cArgsW faultFailWorld).1 _ (by rfl)⟩

/-- The Facebook-search fallback result is always addressed
`search:facebook:<name>`. -/
theorem search_fb_url (n loc : String) (w : World) :
    (search_facebook_structured n loc w).url = "search:facebook:" ++ n := by
  simp only [search_facebook_structured]
  cases w.ddgText ("site:facebook.com " ++ n ++ " " ++ loc) 5 with
  | hits results => by_cases h : results.isEmpty <;> simp [h]
  | importErr => rfl
  | exn m => rfl

/-- The review-search fallback result is always addressed
`search:reviews:<name>`. -/
theorem search_reviews_url (n loc : String) (w : World) :
    (search_google_reviews n loc w).url = "search:reviews:" ++ n := by
  simp only [search_google_reviews]
  cases w.ddgText ("\"" ++ n ++ "\"" ++ (if loc = "" then "" else " " ++ loc)
      ++ " reviews rating stars") 8 with
  | hits results => by_cases h : results.isEmpty <;> simp [h]
  | importErr => rfl
  | exn m => rfl

/-- The two fallback addresses for one name are distinct. -/
theorem search_urls_ne (n : String) :
    ("search:reviews:" ++ n : String) ≠ "search:facebook:" ++ n := by
  intro h
  have h2 := congrArg String.length h
  rw [String.length_append, String.length_append] at h2
  have h3 : ("search:reviews:" : String).length = 15 := rfl
  have h4 : ("search:facebook:" : String).length = 16 := rfl
  omega

/-- Structure of the enrichment appends: at most two, each a fallback
search scoped to the discovered name; the Facebook search is appended
whenever no facebook-related result succeeded, and the review search only
when no collected URL mentions reviews. -/
theorem enrichPhase_appended_spec (args : PipelineArgs) (w : World) (facts : CompanyFacts)
    (rs : List ScrapedContent) :
    (enrichPhase args w facts rs).appended.length ≤ 2 ∧
    (∀ u ∈ (enrichPhase args w facts rs).appended,
      u = "search:facebook:" ++ facts.company_name ∨
      u = "search:reviews:" ++ facts.company_name) ∧
    ((¬ ∃ r ∈ rs, strContains (pyLower r.url) "facebook" = true ∧ r.success = true) →
      ("search:facebook:" ++ facts.company_name) ∈ (enrichPhase args w facts rs).appended) ∧
    (("search:reviews:" ++ facts.company_name) ∈ (enrichPhase args w facts rs).appended →
      ∀ r ∈ rs, strContains (pyLower r.url) "reviews" = false) := by
  have hfb := search_fb_url facts.company_name "Singapore" w
  have hrv := search_reviews_url facts.company_name ((optTruthy args.location).getD "") w
  simp only [enrichPhase]
  by_cases hany : (rs.filter (fun r => strContains (pyLower r.url) "facebook")).any
      (fun r => r.success) = true
  · simp only [hany, if_true]
    by_cases hemp : (rs.filter (fun r => strContains (pyLower r.url) "reviews")).isEmpty = true
    · simp only [hemp, if_true]
      refine ⟨by simp [hrv], ?_, ?_, ?_⟩
      · intro u hu
        simp [hrv] at hu
        exact Or.inr hu
      · intro hno
        exfalso
        rw [List.any_eq_true] at hany
        obtain ⟨x, hx, hxs⟩ := hany
        rw [List.mem_filter] at hx
        exact hno ⟨x, hx.1, hx.2, hxs⟩
      · intro _ r hr
        rw [List.isEmpty_iff, List.filter_eq_nil_iff] at hemp
        simpa using hemp r hr
    · simp only [hemp, Bool.false_eq_true, if_false]
      refine ⟨by simp, by simp, ?_, by simp⟩
      intro hno
      exfalso
      rw [List.any_eq_true] at hany
      obtain ⟨x, hx, hxs⟩ := hany
      rw [List.mem_filter] at hx
      exact hno ⟨x, hx.1, hx.2, hxs⟩
  · simp only [hany, Bool.false_eq_true, if_false]
    by_cases hemp : ((rs ++ [search_facebook_structured facts.company_name "Singapore" w]).filter
        (fun r => strContains (pyLower r.url) "reviews")).isEmpty = true
    · simp only [hemp, if_true]
      refine ⟨by simp [hfb, hrv], ?_, by simp [hfb], ?_⟩
      · intro u hu
        simp [hfb, hrv] at hu
        rcases hu with h | h
        · exact Or.inl h
        · exact Or.inr h
      · intro _ r hr
        rw [List.isEmpty_iff, List.filter_eq_nil_iff] at hemp
        have := hemp r (by simp [hr])
        simpa using this
    · simp only [hemp, Bool.false_eq_true, if_false]
      refine ⟨by simp [hfb], by simp [hfb], by simp [hfb], ?_⟩
      intro hmem
      exfalso
      simp only [hfb, List.mem_singleton] at hmem
      exact search_urls_ne facts.company_name hmem

/-- The post-gate-2 tail records exactly the enrichment pass's appends. -/
theorem pipelineWithFacts_log_appended (args : PipelineArgs) (w : World)
    (rs : List ScrapedContent) (n : Nat) (facts : CompanyFacts) :
    (pipelineWithFacts args w rs n facts).2.enrichAppended =
      (enrichPhase args w facts rs).appended := by
  simp only [pipelineWithFacts]
  cases hsa : stage_analyze facts w with
  | error f => rfl
  | ok oppsOpt =>
    cases oppsOpt with
    | none => rfl
    | some o =>
      by_cases hv : validate_opportunities o
      · simp [hv, stage_outreach]
      · simp [hv]

/-- C5 (amended): when the gates pass, the orchestrator performs exactly
one enrichment pass before Analysis: the run log's appends equal a single
`enrichPhase` output — at most two fallback targets, each scoped to the
discovered name, a Facebook search exactly when no facebook-related
result succeeded and a review search only when no collected URL mentions
reviews. -/
theorem enrichment_pass (args : PipelineArgs) (w : World) (facts : CompanyFacts)
    (h1 : validate_scrape (stage_scrape args w) = true)
    (h2 : stage_extract (stage_scrape args w) w = Except.ok (some facts))
    (h3 : validate_facts facts = true) :
    (runLog args w).enrichAppended =
      (enrichPhase args w facts (stage_scrape args w)).appended ∧
    (enrichPhase args w facts (stage_scrape args w)).appended.length ≤ 2 ∧
    (∀ u ∈ (enrichPhase args w facts (stage_scrape args w)).appended,
      u = "search:facebook:" ++ facts.company_name ∨
      u = "search:reviews:" ++ facts.company_name) ∧
    ((¬ ∃ r ∈ stage_scrape args w,
        strContains (pyLower r.url) "facebook" = true ∧ r.success = true) →
      ("search:facebook:" ++ facts.company_name) ∈
        (enrichPhase args w facts (stage_scrape args w)).appended) ∧
    (("search:reviews:" ++ facts.company_name) ∈
        (enrichPhase args w facts (stage_scrape args w)).appended →
      ∀ r ∈ stage_scrape args w, strContains (pyLower r.url) "reviews" = false) := by
  obtain ⟨hl, hs, hc, hr⟩ := enrichPhase_appended_spec args w facts (stage_scrape args w)
  refine ⟨?_, hl, hs, hc, hr⟩
  simp only [stage_scrape] at h1 h2 ⊢
  simp only [runLog, run_pipelineT, h1, if_true, pipelineAfterGate1, h2, h3, if_true]
  exact pipelineWithFacts_log_appended args w _ _ facts

/-- The facts the extractor oracle of the concrete enrichment runs
returns. -/
def goodFacts : CompanyFacts :=
  { company_name := "Acme", industry := "Logistics", what_they_do := "Ships things.",
    products := ["Delivery"], source_url := "https://w.example" }

/-- A world whose website fetch succeeds, whose searches find nothing,
whose extractor returns `goodFacts` and whose analyzer returns nothing. -/
def enrichWorld : World :=
  { webAttempts := fun _ _ => AttemptOutcome.content pageContent
    igAttempts := fun _ _ => AttemptOutcome.exn "net down"
    ddgText := fun _ _ => SearchCallOutcome.hits []
    ratingIn := fun _ => none
    countIn := fun _ => none
    extract := fun _ => LLMOutcome.value goodFacts
    analyze := fun _ => LLMOutcome.failed }

/-- Arguments of the C5 scenario: primary site plus a Facebook profile,
no subject name known before extraction. -/
def cArgs5 : PipelineArgs :=
  { website_url := "https://w.example", facebook_url := some "https://facebook.com/acme" }

/-- Witness for the enrichment-pass theorem at the concrete scenario. -/
theorem enrichment_pass_witness :
    (runLog cArgs5 enrichWorld).enrichAppended =
      (enrichPhase cArgs5 enrichWorld goodFacts (stage_scrape cArgs5 enrichWorld)).appended :=
  (enrichment_pass cArgs5 enrichWorld goodFacts (by rfl) (by rfl) (by rfl)).1

/-- Counterexample to C5 as stated: in the claim's scenario (site
succeeds, Facebook profile categorically blocked, name discovered only by
the Extractor) the orchestrator appends two fallback targets — a Facebook
search and a review search — not exactly one. -/
theorem enrichment_pass_cex :
    cArgs5.company_name = none ∧
    (runLog cArgs5 enrichWorld).enrichAppended =
      ["search:facebook:Acme", "search:reviews:Acme"] ∧
    (runLog cArgs5 enrichWorld).enrichAppended.length ≠ 1 := by
  exact ⟨rfl, by decide, by decide⟩

/-- The collection phase performs at most one Facebook-search
substitution. -/
theorem stage_scrapeT_calls_le (args : PipelineArgs) (w : World) :
    (stage_scrapeT args w).2 ≤ 1 := by
  simp only [stage_scrapeT]
  cases optTruthy args.facebook_url with
  | some fb =>
    cases optTruthy args.company_name with
    | some name => dsimp only; split <;> simp
    | none => simp
  | none =>
    cases optTruthy args.company_name with
    | some name => simp
    | none => simp

/-- The enrichment phase performs at most one Facebook-search
substitution. -/
theorem enrichPhase_fbCalls_le (args : PipelineArgs) (w : World) (facts : CompanyFacts)
    (rs : List ScrapedContent) :
    (enrichPhase args w facts rs).fbCalls ≤ 1 := by
  simp only [enrichPhase]
  split <;> split <;> simp

/-- The post-gate-2 tail's Facebook-search count is the collection-phase
count plus the enrichment-phase count. -/
theorem pipelineWithFacts_fbCalls (args : PipelineArgs) (w : World)
    (rs : List ScrapedContent) (n : Nat) (facts : CompanyFacts) :
    (pipelineWithFacts args w rs n facts).2.fbSearchCalls =
      n + (enrichPhase args w facts rs).fbCalls := by
  simp only [pipelineWithFacts]
  cases hsa : stage_analyze facts w with
  | error f => rfl
  | ok oppsOpt =>
    cases oppsOpt with
    | none => rfl
    | some o =>
      by_cases hv : validate_opportunities o
      · simp [hv, stage_outreach]
      · simp [hv]

/-- After gate 1 the run performs at most one more Facebook-search
substitution on top of the collection phase's. -/
theorem pipelineAfterGate1_fbCalls_le (args : PipelineArgs) (w : World)
    (rs : List ScrapedContent) (n : Nat) (hn : n ≤ 1) :
    (pipelineAfterGate1 args w rs n).2.fbSearchCalls ≤ 2 := by
  simp only [pipelineAfterGate1]
  cases hse : stage_extract rs w with
  | error f => simp; omega
  | ok factsOpt =>
    cases factsOpt with
    | none => simp; omega
    | some facts =>
      by_cases hvf : validate_facts facts
      · simp only [hvf, if_true]
        rw [pipelineWithFacts_fbCalls]
        have := enrichPhase_fbCalls_le args w facts rs
        omega
      · simp [hvf]; omega

/-- C6 (amended): a Facebook-addressed target is never fetched — zero
attempts, no retries, reported failed immediately with the block message —
and the whole run substitutes at most two (not exactly one) fallback
search targets for it: one during collection when the subject's name is
already known, and one more after extraction when no facebook-related
result has succeeded. -/
theorem categorical_block_policy (url : String) (attempts : Nat → AttemptOutcome)
    (args : PipelineArgs) (w : World) :
    (strContains (pyLower url) "facebook.com" = true →
      scrape_socialT url attempts =
        (⟨url, false, "",
          some "Facebook blocks direct scraping. Use search_facebook_structured instead.",
          0⟩, 0, [])) ∧
    (runLog args w).fbSearchCalls ≤ 2 := by
  constructor
  · intro h
    simp [scrape_socialT, h]
  · simp only [runLog, run_pipelineT]
    by_cases hval : validate_scrape (stage_scrapeT args w).1
    · simp only [hval, if_true]
      exact pipelineAfterGate1_fbCalls_le args w _ _ (stage_scrapeT_calls_le args w)
    · simp only [hval, Bool.false_eq_true, if_false]
      have := stage_scrapeT_calls_le args w
      simp
      omega

/-- Witness: a Facebook URL is refused with zero fetch attempts. -/
theorem categorical_block_policy_witness :
    scrape_socialT "https://facebook.com/acme" (fun _ => AttemptOutcome.exn "x") =
      (⟨"https://facebook.com/acme", false, "",
        some "Facebook blocks direct scraping. Use search_facebook_structured instead.",
        0⟩, 0, []) :=
  (categorical_block_policy "https://facebook.com/acme" (fun _ => AttemptOutcome.exn "x")
    cArgsW faultFailWorld).1 (by decide)

/-- Arguments of the C6 scenario: site, blocked Facebook profile, and the
subject's name already known at collection time. -/
def cArgs6 : PipelineArgs :=
  { website_url := "https://w.example", facebook_url := some "https://facebook.com/acme",
    company_name := some "Acme" }

/-- Counterexample to C6 as stated: with the name known up front and the
collection-time fallback search itself failing, the run substitutes two
fallback search targets for the blocked profile, not exactly one. -/
theorem categorical_block_cex :
    (runLog cArgs6 enrichWorld).fbSearchCalls = 2 ∧
    (runLog cArgs6 enrichWorld).fbSearchCalls ≠ 1 :=
  ⟨by decide, by decide⟩
